import Mathlib

/-!
Verification development for the HotelReservation repository.

Shallow embedding of the reservation pricing and lifecycle engine of
`uiMakeReservation.py` (primary module), together with the divergent
copies of the same logic in `uiMakeReservation_enhanced.py` and
`uiCheckout_enhanced.py` where the properties under study cite them.

Modelling conventions:
- Money is represented in whole cents (plain `Int`).  Python's
  `round(x, 2)` on dollar amounts is modelled by `roundC` on rationals,
  producing cents; on amounts that are already whole cents it is the
  identity, exactly as in the source where every stored amount is the
  result of a `round(_, 2)`.
- Calendar dates are day numbers (`Int`); `(d2 - d1).days` becomes plain
  integer subtraction, `dt.date.today()` becomes an explicit `today`
  parameter.
- Python dicts keyed by ISO date strings become ordered association
  lists `List (Int × Int)`; insertion order in the source is date
  order, which the lists preserve.
- UI-only bookkeeping written by the source but read by nothing the
  claims mention (timestamps such as `cancelled_date`, `check_in_date`,
  the human-readable `change_note` text, card data) is elided.
- Fallible operations (paths where the source shows an error dialog and
  returns before mutating anything) are `Option`-valued; `none` means
  the operation was refused and the record is unchanged.
-/

namespace HotelReservation

/-- Python `round(x, 2)` on a dollar amount, acting on the amount
expressed in cents: round the rational number of cents to the nearest
integer.  On whole-cent inputs it is the identity. -/
def roundC (q : ℚ) : Int := round q

/-- `ROOM_COUNT = 45` from the source. -/
def ROOM_COUNT : ℕ := 45

/-- Reservation types (`RATE_MULT` keys in the source). -/
inductive RType where
  | Prepaid
  | SixtyDay
  | Conventional
  | Incentive
deriving DecidableEq, Repr

/-- Reservation statuses.  The plain module's `STATUSES` list has
`Changing date` and no `No-Show`; the enhanced modules have `No-Show`
and no `Changing date`.  The union is used here. -/
inductive RStatus where
  | Booked
  | InHouse
  | CheckedOut
  | Cancelled
  | ChangingDate
  | NoShow
deriving DecidableEq, Repr

/-- `RATE_MULT = {"Prepaid": 0.75, "60-Day": 0.85, "Conventional": 1.00,
"Incentive": 0.80}`. -/
def RATE_MULT : RType → ℚ
  | RType.Prepaid => 3 / 4
  | RType.SixtyDay => 17 / 20
  | RType.Conventional => 1
  | RType.Incentive => 4 / 5

/-- A reservation record (the dict appended by `on_save`), restricted to
the fields the lifecycle and pricing logic reads or writes.
`snapshot` is the `snapshot["nightly"]` date → locked-rate mapping.
`no_show_fee` is the key written by the enhanced checkout module's
`_mark_no_show`; `cancellation_fee` the key written by the enhanced
`cancel_selected`; `no_show_penalty` the key written by the plain
module. `assigned_room = ""` models a missing/empty room (falsy in
Python). -/
structure Reservation where
  locator : String
  arrive : Int
  depart : Int
  rtype : RType
  status : RStatus
  total_locked : Int
  snapshot : List (Int × Int)
  paid_advance : Int
  fully_paid : Bool
  no_show_penalty : Int
  no_show_fee : Int
  cancellation_fee : Int
  payments : List (Int × Int)
  checked_in : Bool
  checked_out : Bool
  assigned_room : String
  cancellation_reason : String
deriving DecidableEq, Repr

/-- The persisted store: base-rate table, reservations, locator counter
and the `payment_reminders_sent` map. -/
structure Store where
  baseRates : Int → Option Int
  reservations : List Reservation
  lastLocator : Int
  remindersSent : List (String × Int)

/-- `daterange(start, end)`: the dates in `[start, end)`. -/
def daterange (start e : Int) : List Int :=
  (List.range (e - start).toNat).map (fun i => start + (i : Int))

/-- `base_rate(state, d)`: configured rate for the date, default 300.00
(30000 cents). -/
def base_rate (s : Store) (d : Int) : Int :=
  (s.baseRates d).getD 30000

/-- Status test `r.get("status","Booked") in ("Booked","In-House")`. -/
def isActive : RStatus → Bool
  | RStatus.Booked => true
  | RStatus.InHouse => true
  | _ => false

/-- The local `res` of `occ_ratio`: active reservations, optionally
excluding one locator. -/
def occ_active (s : Store) (ex : Option String) : List Reservation :=
  match ex with
  | some x => (s.reservations.filter (fun r => isActive r.status)).filter
      (fun (r : Reservation) => decide (r.locator ≠ x))
  | none => s.reservations.filter (fun r => isActive r.status)

/-- The local `nightly_counts` of `occ_ratio`: for each night of the
span, how many of the active reservations contain it. -/
def nightly_counts (s : Store) (start e : Int) (ex : Option String) : List ℕ :=
  (daterange start e).map
    (fun n => ((occ_active s ex).filter
      (fun (r : Reservation) => decide (r.arrive ≤ n ∧ n < r.depart))).length)

/-- `occ_ratio(state, start, end, exclude_reservation_id=None)` from
`uiMakeReservation.py`.  The enhanced module's `occ_ratio` is the
`ex = none` case of the same computation. -/
def occ_ratio (s : Store) (start e : Int) (ex : Option String) : ℚ :=
  if (occ_active s ex).isEmpty then 0
  else if (nightly_counts s start e ex).isEmpty then 0
  else (((nightly_counts s start e ex).sum : ℚ) /
    ((nightly_counts s start e ex).length : ℚ)) / (ROOM_COUNT : ℚ)

/-- `is_available_for(state, start, end, exclude_reservation_id)`.
`min` over the per-night free-room counts is taken by folding `min`
starting from the capacity, which equals the Python `min(...)` because
every per-night count is at most the capacity. -/
def is_available_for (s : Store) (start e : Int) (ex : Option String) : Bool × Int :=
  let counts := (daterange start e).map
    (fun n => (s.reservations.filter (fun r =>
      decide (r.arrive ≤ n ∧ n < r.depart) && isActive r.status
        && decide (ex ≠ some r.locator))).length)
  if counts.isEmpty then (true, (ROOM_COUNT : Int))
  else
    let frees := counts.map (fun c => max 0 ((ROOM_COUNT : Int) - (c : Int)))
    let m := frees.foldl min (ROOM_COUNT : Int)
    (decide (0 < m), m)

/-! ### The quote engine (`quote_total` in `uiMakeReservation.py`)

The pipeline inside `quote_total` is split into named definitions, one
per local variable of the source, so the theorems can speak about the
intermediate values. -/

/-- `occ = occ_ratio(state, start, end)` (no exclusion). -/
def quote_occ (s : Store) (a d : Int) : ℚ := occ_ratio s a d none

/-- `eligible = (start - TODAY()).days <= 30 and occ <= 0.60`. -/
def quote_elig (s : Store) (today a d : Int) : Bool :=
  decide (a - today ≤ 30 ∧ quote_occ s a d ≤ 3 / 5)

/-- `mult = RATE_MULT.get(rtype, 1.0)`, then
`if rtype == "Incentive" and not eligible: mult = 1.0`. -/
def quote_mult (s : Store) (today a d : Int) (rtype : RType) : ℚ :=
  if rtype = RType.Incentive ∧ quote_elig s today a d = false then 1
  else RATE_MULT rtype

/-- `nightly = {d: round(base_rate(state, d) * mult, 2) for d in daterange}`. -/
def quote_nightly (s : Store) (today a d : Int) (rtype : RType) : List (Int × Int) :=
  (daterange a d).map
    (fun x => (x, roundC ((base_rate s x : ℚ) * quote_mult s today a d rtype)))

/-- `new_total = round(sum(nightly.values()), 2)`; the rounding is the
identity because every nightly value is already whole cents. -/
def quote_plain_total (s : Store) (today a d : Int) (rtype : RType) : Int :=
  ((quote_nightly s today a d rtype).map Prod.snd).sum

/-- `round(new_total * 1.10, 2)` on a whole-cent total. -/
def round110 (t : Int) : Int := roundC ((t : ℚ) * 11 / 10)

/-- Result tuple of `quote_total`
`(total, nightly, eligible, occ, change_note, penalty_amount)`;
the audit string `change_note` is elided. -/
structure QuoteResult where
  total : Int
  nightly : List (Int × Int)
  eligible : Bool
  occ : ℚ
  penalty : Int
deriving DecidableEq, Repr

/-- `quote_total(state, arrive, depart, rtype, original_cost=0, is_change=False)`
from `uiMakeReservation.py`.  `none` models the raised
`ValueError("Departure must be after arrival.")`.  The enhanced module's
`quote_total` is the `is_change = false` case (it has no change logic). -/
def quote_total (s : Store) (today a d : Int) (rtype : RType)
    (original_cost : Int) (is_change : Bool) : Option QuoteResult :=
  if d ≤ a then none
  else if is_change = true ∧ (rtype = RType.Prepaid ∨ rtype = RType.SixtyDay) then
    some { total := round110 (quote_plain_total s today a d rtype)
           nightly := quote_nightly s today a d rtype
           eligible := quote_elig s today a d
           occ := quote_occ s a d
           penalty :=
             if 0 < round110 (quote_plain_total s today a d rtype) - original_cost
             then round110 (quote_plain_total s today a d rtype) - original_cost
             else 0 }
  else
    some { total := quote_plain_total s today a d rtype
           nightly := quote_nightly s today a d rtype
           eligible := quote_elig s today a d
           occ := quote_occ s a d
           penalty := 0 }

/-! ### Creation (`ReservationApp.on_save`) -/

/-- The record appended by `on_save` in `uiMakeReservation.py`, restricted
to the modelled fields.  The payment-relevant lines are
`adv = total if rtype == "Prepaid" else 0.0`,
`"paid_advance": round(adv, 2)`,
`"payments": [{today: adv}] if adv else []`,
`"fully_paid": True if rtype == "Prepaid" else False`. -/
def on_save_plain (res_id : String) (a d : Int) (rtype : RType) (total : Int)
    (nightly : List (Int × Int)) (room : String) (status : RStatus)
    (today : Int) : Reservation :=
  let adv : Int := if rtype = RType.Prepaid then total else 0
  { locator := res_id
    arrive := a
    depart := d
    rtype := rtype
    status := status
    total_locked := total
    snapshot := nightly
    paid_advance := adv
    fully_paid := decide (rtype = RType.Prepaid)
    no_show_penalty := 0
    no_show_fee := 0
    cancellation_fee := 0
    payments := if adv ≠ 0 then [(today, adv)] else []
    checked_in := false
    checked_out := false
    assigned_room := room
    cancellation_reason := "" }

/-- The advance payment recorded by `on_save` in
`uiMakeReservation_enhanced.py`: `adv = total` when the type is in
`("Prepaid", "60-Day")`, else `0.0`.  That module's record carries no
`fully_paid` key at all. -/
def on_save_enhanced_adv (rtype : RType) (total : Int) : Int :=
  if rtype = RType.Prepaid ∨ rtype = RType.SixtyDay then total else 0

/-! ### Lifecycle transitions (`uiMakeReservation.py`) -/

/-- `list(rec['snapshot']['nightly'].values())[0]` when the snapshot is
non-empty, else `base_rate(state, rec["arrive"])` — the cancellation
penalty preview used by `cancel_reservation`. -/
def first_night_or_base (s : Store) (rec : Reservation) : Int :=
  match rec.snapshot with
  | [] => base_rate s rec.arrive
  | (_, c) :: _ => c

/-- `ReservationApp.cancel_reservation` (plain module), acting on the
selected record.  `none` models the two refusal dialogs (already
cancelled / checked out).  For Conventional/Incentive with fewer than 3
days until arrival the first night's locked rate is charged and folded
into `paid_advance` as a floor; Prepaid/60-Day take the `pass` branch. -/
def cancel_reservation (s : Store) (today : Int) (rec : Reservation) :
    Option Reservation :=
  if rec.status = RStatus.Cancelled then none
  else if rec.checked_out then none
  else if rec.rtype = RType.Prepaid ∨ rec.rtype = RType.SixtyDay then
    some { rec with status := RStatus.Cancelled }
  else if rec.arrive - today < 3 then
    some { rec with no_show_penalty := first_night_or_base s rec
                    paid_advance := max rec.paid_advance (first_night_or_base s rec)
                    status := RStatus.Cancelled }
  else some { rec with status := RStatus.Cancelled }

/-- `ReservationApp.check_in_guest` (plain module).  Refused when already
In-House, when Cancelled, or when no room is assigned; otherwise sets
status In-House and `checked_in`. -/
def check_in_guest (rec : Reservation) : Option Reservation :=
  if rec.status = RStatus.InHouse then none
  else if rec.status = RStatus.Cancelled then none
  else if rec.assigned_room = "" then none
  else some { rec with status := RStatus.InHouse, checked_in := true }

/-- `ReservationApp.check_out_guest` (plain module).  Refused unless
In-House; Conventional/Incentive pay `total_locked - paid_advance` when
positive and are marked fully paid; status becomes Checked-out. -/
def check_out_guest (today : Int) (rec : Reservation) : Option Reservation :=
  if rec.status ≠ RStatus.InHouse then none
  else if (rec.rtype = RType.Conventional ∨ rec.rtype = RType.Incentive) ∧
      0 < rec.total_locked - rec.paid_advance then
    some { rec with payments := rec.payments ++ [(today, rec.total_locked - rec.paid_advance)]
                    paid_advance := rec.total_locked
                    fully_paid := true
                    status := RStatus.CheckedOut
                    checked_out := true }
  else some { rec with status := RStatus.CheckedOut, checked_out := true }

/-- `ReservationApp.process_prepayment` (plain module).  Refused when
already fully covered or when the type pays at checkout; otherwise the
remaining balance is collected in full. -/
def process_prepayment (today : Int) (rec : Reservation) : Option Reservation :=
  if rec.total_locked ≤ rec.paid_advance then none
  else if rec.rtype = RType.Conventional ∨ rec.rtype = RType.Incentive then none
  else
    some { rec with payments := rec.payments ++ [(today, rec.total_locked - rec.paid_advance)]
                    paid_advance := rec.total_locked
                    fully_paid := true }

/-- `ReservationApp._apply_payment_update` (plain module).  Rejects
non-positive amounts; otherwise appends the payment, adds it to
`paid_advance` and sets `fully_paid` once the total is covered (it is
never unset). -/
def apply_payment_update (rec : Reservation) (pay_date : Int) (amt : Int) :
    Option Reservation :=
  if amt ≤ 0 then none
  else
    some { rec with payments := rec.payments ++ [(pay_date, amt)]
                    paid_advance := rec.paid_advance + amt
                    fully_paid :=
                      if rec.total_locked ≤ rec.paid_advance + amt then true
                      else rec.fully_paid }

/-- `ReservationApp.apply_date_change` (plain module).  Validates the new
span, checks availability excluding this reservation, re-quotes with
`is_change = rtype in ["Prepaid", "60-Day"]` and `original_cost =
total_locked`, then atomically replaces dates, locked total and
snapshot.  A `Changing date` status reverts to Booked. -/
def apply_date_change (s : Store) (today : Int) (rec : Reservation)
    (new_arrive new_depart : Int) : Option Reservation :=
  if new_depart ≤ new_arrive then none
  else if (is_available_for s new_arrive new_depart (some rec.locator)).1 = false then none
  else
    match quote_total s today new_arrive new_depart rec.rtype rec.total_locked
        (decide (rec.rtype = RType.Prepaid ∨ rec.rtype = RType.SixtyDay)) with
    | none => none
    | some q =>
      some (if rec.status = RStatus.ChangingDate
            then { rec with arrive := new_arrive
                            depart := new_depart
                            total_locked := q.total
                            snapshot := q.nightly
                            status := RStatus.Booked }
            else { rec with arrive := new_arrive
                            depart := new_depart
                            total_locked := q.total
                            snapshot := q.nightly })

/-! ### Enhanced-module lifecycle copies -/

/-- `CheckInOutApp._check_in` (`uiCheckout_enhanced.py`): refused unless
status is Booked and a room is assigned. -/
def check_in_enhanced (rec : Reservation) : Option Reservation :=
  if rec.status ≠ RStatus.Booked then none
  else if rec.assigned_room = "" then none
  else some { rec with status := RStatus.InHouse }

/-- `CheckInOutApp._mark_no_show` (`uiCheckout_enhanced.py`): refused
unless Booked; sets status No-Show and a `no_show_fee` of the first
night's rate for Conventional/Incentive (0 with no snapshot) and of the
full locked total for Prepaid/60-Day. -/
def mark_no_show (rec : Reservation) : Option Reservation :=
  if rec.status ≠ RStatus.Booked then none
  else
    some { rec with
      status := RStatus.NoShow
      no_show_fee :=
        match rec.rtype with
        | RType.Conventional | RType.Incentive =>
          (match rec.snapshot with
           | [] => 0
           | (_, c) :: _ => c)
        | RType.Prepaid | RType.SixtyDay => rec.total_locked }

/-- `ReservationApp.cancel_selected` (`uiMakeReservation_enhanced.py`):
always cancels; Prepaid/60-Day cancelled at most 30 days before arrival
record a fee of the full locked total (else 0); Conventional/Incentive
always record the first night's rate (0 with no snapshot). -/
def cancel_selected (today : Int) (rec : Reservation) : Reservation :=
  { rec with
    status := RStatus.Cancelled
    cancellation_fee :=
      match rec.rtype with
      | RType.Prepaid | RType.SixtyDay =>
        if rec.arrive - today ≤ 30 then rec.total_locked else 0
      | RType.Conventional | RType.Incentive =>
        (match rec.snapshot with
         | [] => 0
         | (_, c) :: _ => c) }

/-! ### The daily batch task runner (`run_daily_tasks`) -/

/-- One performed-task description, carrying the locator the source
interpolates into the message string. -/
inductive Task where
  | reminder (loc : String)
  | autoCancel (loc : String)
  | noShow (loc : String)
deriving DecidableEq, Repr

/-- Dict assignment `state["payment_reminders_sent"][loc] = today`. -/
def upsert (m : List (String × Int)) (k : String) (v : Int) : List (String × Int) :=
  if m.any (fun p => p.1 = k) then
    m.map (fun p => if p.1 = k then (k, v) else p)
  else m ++ [(k, v)]

/-- Trigger of the 60-Day payment-reminder rule (45 days before arrival).
Note the rule does not consult `payment_reminders_sent`. -/
def needs_reminder (today : Int) (r : Reservation) : Bool :=
  decide (r.status = RStatus.Booked ∧ r.rtype = RType.SixtyDay ∧ r.arrive - today = 45)

/-- Trigger of the 60-Day auto-cancel rule (30 days before arrival, no
payment made). -/
def needs_auto_cancel (today : Int) (r : Reservation) : Bool :=
  decide (r.status = RStatus.Booked ∧ r.rtype = RType.SixtyDay ∧
    r.arrive - today = 30 ∧ r.paid_advance = 0)

/-- Trigger of the no-show rule (arrived yesterday, never checked in). -/
def needs_no_show (today : Int) (r : Reservation) : Bool :=
  decide (r.status = RStatus.Booked ∧ r.arrive = today - 1 ∧ r.checked_in = false)

/-- Mutation of one record by the auto-cancel pass. -/
def auto_cancel_step (today : Int) (r : Reservation) : Reservation :=
  if needs_auto_cancel today r then { r with status := RStatus.Cancelled } else r

/-- Mutation of one record by the no-show pass: the first night's locked
rate (or the base rate of yesterday with no snapshot) is recorded as
`no_show_penalty` and the status set to Cancelled (the plain module has
no No-Show status) with reason `"No-show"`. -/
def no_show_step (s : Store) (today : Int) (r : Reservation) : Reservation :=
  if needs_no_show today r then
    { r with
      no_show_penalty :=
        match r.snapshot with
        | [] => base_rate s (today - 1)
        | (_, c) :: _ => c
      status := RStatus.Cancelled
      cancellation_reason := "No-show" }
  else r

/-- `run_daily_tasks(state)` from `uiMakeReservation.py`: three passes in
order (reminders, 60-Day auto-cancel, no-show), each sweeping the
reservation list; the task list concatenates the descriptions in the
order the source appends them. -/
def run_daily_tasks (s : Store) (today : Int) : Store × List Task :=
  let hits1 := s.reservations.filter (needs_reminder today)
  let reminders1 := hits1.foldl (fun m r => upsert m r.locator today) s.remindersSent
  let tasks1 := hits1.map (fun r => Task.reminder r.locator)
  let rs2 := s.reservations.map (auto_cancel_step today)
  let tasks2 := (s.reservations.filter (needs_auto_cancel today)).map
    (fun r => Task.autoCancel r.locator)
  let rs3 := rs2.map (no_show_step s today)
  let tasks3 := (rs2.filter (needs_no_show today)).map
    (fun r => Task.noShow r.locator)
  ({ s with reservations := rs3, remindersSent := reminders1 },
   tasks1 ++ tasks2 ++ tasks3)

/-! ### Specification-side definitions

One definition written from the specification's words rather than from
the source, for comparison against the source pipeline. -/

/-- The price-multiplier table exactly as the specification states it:
Prepaid 0.75, 60-Day 0.85, Conventional 1.00, Incentive 0.80, except
that a non-eligible Incentive quote uses 1.00. -/
def spec_multiplier : RType → Bool → ℚ
  | RType.Prepaid, _ => 3 / 4
  | RType.SixtyDay, _ => 17 / 20
  | RType.Conventional, _ => 1
  | RType.Incentive, true => 4 / 5
  | RType.Incentive, false => 1

/-! ### Concrete fixtures used by witnesses and counterexamples -/

/-- A store with no reservations and no configured base rates: every
date prices at the 300.00 default. -/
def Sempty : Store :=
  { baseRates := fun _ => none
    reservations := []
    lastLocator := 4000
    remindersSent := [] }

/-- A one-night Conventional reservation booked at the default rate. -/
def rBase : Reservation :=
  { locator := "OO1"
    arrive := 0
    depart := 1
    rtype := RType.Conventional
    status := RStatus.Booked
    total_locked := 30000
    snapshot := [(0, 30000)]
    paid_advance := 0
    fully_paid := false
    no_show_penalty := 0
    no_show_fee := 0
    cancellation_fee := 0
    payments := []
    checked_in := false
    checked_out := false
    assigned_room := ""
    cancellation_reason := "" }

/-- A store holding 46 simultaneously active one-night reservations —
one more than the 45-room capacity (nothing in `on_save` prevents
overbooking; `Verify Availability` is a separate, optional button). -/
def S46 : Store :=
  { baseRates := fun _ => none
    reservations := List.replicate 46 rBase
    lastLocator := 4000
    remindersSent := [] }

/-- A Booked 60-Day reservation arriving in exactly 45 days (as seen
from day 0): the payment-reminder trigger. -/
def r45 : Reservation := { rBase with
  rtype := RType.SixtyDay
  arrive := 45
  depart := 47 }

/-- Store containing only `r45`. -/
def S45 : Store :=
  { baseRates := fun _ => none
    reservations := [r45]
    lastLocator := 4000
    remindersSent := [] }

/-- A fully-paid Prepaid reservation that arrived yesterday (as seen
from day 1) and was never checked in: the no-show trigger. -/
def rYest : Reservation := { rBase with
  rtype := RType.Prepaid
  arrive := 0
  depart := 2
  snapshot := [(0, 30000), (1, 30000)]
  total_locked := 60000
  paid_advance := 60000
  fully_paid := true }

/-- Store containing only `rYest`. -/
def SYest : Store :=
  { baseRates := fun _ => none
    reservations := [rYest]
    lastLocator := 4000
    remindersSent := [] }

/-- A checked-out reservation with a room still assigned. -/
def rCO : Reservation := { rBase with
  status := RStatus.CheckedOut
  checked_out := true
  assigned_room := "12" }

/-- A Conventional reservation arriving 10 days out (as seen from
day 0), with a locked one-night snapshot. -/
def r10 : Reservation := { rBase with
  arrive := 10
  depart := 11
  snapshot := [(10, 30000)] }

/-- A Conventional reservation arriving tomorrow (1 day out, i.e. fewer
than 3), with a locked one-night snapshot. -/
def rSoon : Reservation := { rBase with
  arrive := 1
  depart := 2
  snapshot := [(1, 30000)] }

/-- A Booked Conventional reservation with a room assigned. -/
def rRoom : Reservation := { rBase with assigned_room := "7" }

/-- The quote produced over the one-night span `[0, 1)` of the empty
store for a Conventional reservation, in the canonical form `quote_total`
returns it. -/
def qConv : QuoteResult :=
  { total := quote_plain_total Sempty 0 0 1 RType.Conventional
    nightly := quote_nightly Sempty 0 0 1 RType.Conventional
    eligible := quote_elig Sempty 0 0 1
    occ := quote_occ Sempty 0 1
    penalty := 0 }

/-- The date-change quote over the one-night span `[0, 1)` of the empty
store for a Prepaid reservation with original cost 0, in the canonical
form `quote_total` returns it. -/
def qPre : QuoteResult :=
  { total := round110 (quote_plain_total Sempty 0 0 1 RType.Prepaid)
    nightly := quote_nightly Sempty 0 0 1 RType.Prepaid
    eligible := quote_elig Sempty 0 0 1
    occ := quote_occ Sempty 0 1
    penalty :=
      if 0 < round110 (quote_plain_total Sempty 0 0 1 RType.Prepaid) - 0
      then round110 (quote_plain_total Sempty 0 0 1 RType.Prepaid) - 0
      else 0 }

/-- The saved record of a 60-Day booking for a two-night stay totalling
600.00, created through the plain module's `on_save`. -/
def r60 : Reservation :=
  on_save_plain "OO2" 0 2 RType.SixtyDay 60000 [(0, 30000), (1, 30000)] "" RStatus.Booked 0

/-- The record `cancel_reservation` produces for `rSoon` (cancelled on
day 0, one day before arrival), in canonical form. -/
def rSoonC : Reservation := { rSoon with
  no_show_penalty := first_night_or_base Sempty rSoon
  paid_advance := max rSoon.paid_advance (first_night_or_base Sempty rSoon)
  status := RStatus.Cancelled }

/-- `rRoom` after a successful enhanced check-in. -/
def rRoomIn : Reservation := { rRoom with status := RStatus.InHouse }

/-- `rBase` after a 5.00 payment through `_apply_payment_update`, in
canonical form. -/
def rPaid : Reservation := { rBase with
  payments := rBase.payments ++ [(0, 500)]
  paid_advance := rBase.paid_advance + 500
  fully_paid :=
    if rBase.total_locked ≤ rBase.paid_advance + 500 then true
    else rBase.fully_paid }

/-! ### Shared helper lemmas -/

/-- Destructuring a successful quote: the span was valid and the
eligibility, nightly snapshot and occupancy fields are the pipeline
values, independent of the change flag. -/
lemma quote_total_fields (s : Store) (today a d : Int) (rtype : RType)
    (X : Int) (ic : Bool) (q : QuoteResult)
    (h : quote_total s today a d rtype X ic = some q) :
    a < d ∧ q.eligible = quote_elig s today a d ∧
      q.nightly = quote_nightly s today a d rtype ∧ q.occ = quote_occ s a d := by
  unfold quote_total at h
  split at h
  · exact absurd h (by simp)
  · next hda =>
    refine ⟨lt_of_not_le hda, ?_⟩
    split at h <;> (cases Option.some.inj h; exact ⟨rfl, rfl, rfl⟩)

/-- The positive-part conditional of the source equals `max 0`. -/
lemma if_pos_eq_max (c : Int) : (if 0 < c then c else 0) = max 0 c := by
  rcases le_or_lt c 0 with hc | hc
  · rw [if_neg (not_lt.mpr hc), max_eq_left hc]
  · rw [if_pos hc, max_eq_right (le_of_lt hc)]

/-! ### Claim theorems -/

/-- C1: for every quote over a valid span, incentive eligibility equals
(daysUntilArrival ≤ 30 AND occupancyRatio ≤ 0.60), and every nightly
price in the returned snapshot is `round(baseRate(date) × multiplier, 2)`
with the multiplier Prepaid 0.75, 60-Day 0.85, Conventional 1.00,
Incentive 0.80 — except that a non-eligible Incentive quote uses
multiplier 1.00 instead of 0.80. -/
theorem quote_incentive_eligibility_and_multiplier (s : Store)
    (today a d : Int) (rtype : RType) (X : Int) (ic : Bool) (q : QuoteResult)
    (h : quote_total s today a d rtype X ic = some q) :
    (q.eligible = true ↔ (a - today ≤ 30 ∧ occ_ratio s a d none ≤ 3 / 5)) ∧
    q.nightly = (daterange a d).map
      (fun x => (x, roundC ((base_rate s x : ℚ) * spec_multiplier rtype q.eligible))) := by
  obtain ⟨-, he, hn, -⟩ := quote_total_fields s today a d rtype X ic q h
  constructor
  · rw [he]
    unfold quote_elig quote_occ
    simp [decide_eq_true_eq]
  · rw [hn, he]
    unfold quote_nightly
    have hm : quote_mult s today a d rtype =
        spec_multiplier rtype (quote_elig s today a d) := by
      cases rtype <;> cases helig : quote_elig s today a d <;>
        simp [quote_mult, RATE_MULT, spec_multiplier, helig]
    rw [hm]

/-- C1 witness: the eligibility/multiplier property instantiated at a
concrete Conventional quote over the empty store. -/
theorem quote_incentive_eligibility_and_multiplier_witness :
    (qConv.eligible = true ↔ ((0 : Int) - 0 ≤ 30 ∧ occ_ratio Sempty 0 1 none ≤ 3 / 5)) ∧
    qConv.nightly = (daterange 0 1).map
      (fun x => (x, roundC ((base_rate Sempty x : ℚ) *
        spec_multiplier RType.Conventional qConv.eligible))) :=
  quote_incentive_eligibility_and_multiplier Sempty 0 0 1 RType.Conventional 0 false qConv rfl

/-- C2: a date-change quote for a Prepaid/60-Day reservation with
original locked cost `X` and plain recomputed total `Y` returns applied
total `round(Y*1.10, 2)` and penalty `max(0, round(Y*1.10,2) - X)`;
a date change on a Conventional/Incentive reservation (which
`apply_date_change` quotes with `is_change = false`) returns the plain
recomputed total with zero penalty, and `apply_date_change` locks
exactly the quoted total and snapshot. -/
theorem date_change_premium_policy (s : Store) (today a d : Int) (X : Int) :
    (∀ t : RType, (t = RType.Prepaid ∨ t = RType.SixtyDay) → ∀ q : QuoteResult,
        quote_total s today a d t X true = some q →
        q.total = round110 (quote_plain_total s today a d t) ∧
        q.penalty = max 0 (round110 (quote_plain_total s today a d t) - X)) ∧
    (∀ t : RType, (t = RType.Conventional ∨ t = RType.Incentive) → ∀ q : QuoteResult,
        quote_total s today a d t X
          (decide (t = RType.Prepaid ∨ t = RType.SixtyDay)) = some q →
        q.total = quote_plain_total s today a d t ∧ q.penalty = 0) ∧
    (∀ (rec : Reservation) (rec' : Reservation),
        apply_date_change s today rec a d = some rec' →
        ∃ q : QuoteResult,
          quote_total s today a d rec.rtype rec.total_locked
            (decide (rec.rtype = RType.Prepaid ∨ rec.rtype = RType.SixtyDay)) = some q ∧
          rec'.total_locked = q.total ∧ rec'.snapshot = q.nightly ∧
          rec'.arrive = a ∧ rec'.depart = d) := by
  refine ⟨?_, ?_, ?_⟩
  · intro t ht q h
    unfold quote_total at h
    split at h
    · exact absurd h (by simp)
    · rw [if_pos ⟨rfl, ht⟩] at h
      cases Option.some.inj h
      exact ⟨rfl, (if_pos_eq_max _).symm ▸ rfl⟩
  · intro t ht q h
    unfold quote_total at h
    split at h
    · exact absurd h (by simp)
    · have hnot : ¬ ((decide (t = RType.Prepaid ∨ t = RType.SixtyDay)) = true ∧
          (t = RType.Prepaid ∨ t = RType.SixtyDay)) := by
        rcases ht with rfl | rfl <;> simp
      rw [if_neg hnot] at h
      cases Option.some.inj h
      exact ⟨rfl, rfl⟩
  · intro rec rec' h
    unfold apply_date_change at h
    split at h
    · exact absurd h (by simp)
    · split at h
      · exact absurd h (by simp)
      · split at h
        · exact absurd h (by simp)
        · next q hq =>
          refine ⟨q, hq, ?_⟩
          cases Option.some.inj h
          split <;> exact ⟨rfl, rfl, rfl, rfl⟩

/-- C2 witness: the premium arithmetic instantiated at a concrete
Prepaid date-change quote over the empty store. -/
theorem date_change_premium_policy_witness :
    qPre.total = round110 (quote_plain_total Sempty 0 0 1 RType.Prepaid) ∧
    qPre.penalty = max 0 (round110 (quote_plain_total Sempty 0 0 1 RType.Prepaid) - 0) :=
  (date_change_premium_policy Sempty 0 0 1 0).1 RType.Prepaid (Or.inl rfl) qPre rfl

/-- C3 (amended): the returned total equals the sum of the returned
nightly snapshot (whole cents, so the final `round(_, 2)` is the
identity) for every quote — except that a quote with the date-change
flag for a Prepaid/60-Day reservation returns `round(1.10 × that sum, 2)`
instead. -/
theorem quote_total_vs_snapshot_sum (s : Store) (today a d : Int)
    (rtype : RType) (X : Int) (ic : Bool) (q : QuoteResult)
    (h : quote_total s today a d rtype X ic = some q) :
    q.total = if ic = true ∧ (rtype = RType.Prepaid ∨ rtype = RType.SixtyDay)
      then round110 ((q.nightly.map Prod.snd).sum)
      else (q.nightly.map Prod.snd).sum := by
  unfold quote_total at h
  split at h
  · exact absurd h (by simp)
  · split at h <;> next hc =>
      cases Option.some.inj h
      simp only [hc, if_pos, if_neg]
      rfl

/-- C3 witness: the amended total/snapshot relation instantiated at a
concrete Prepaid date-change quote. -/
theorem quote_total_vs_snapshot_sum_witness :
    qPre.total = if (true = true ∧ (RType.Prepaid = RType.Prepaid ∨
        RType.Prepaid = RType.SixtyDay))
      then round110 ((qPre.nightly.map Prod.snd).sum)
      else (qPre.nightly.map Prod.snd).sum :=
  quote_total_vs_snapshot_sum Sempty 0 0 1 RType.Prepaid 0 true qPre rfl

/-- C3 counterexample: over the empty store (default rate 300.00), a
one-night Prepaid date-change quote locks the nightly snapshot
`{day 0 ↦ 225.00}` (sum 225.00) but returns total 247.50 — the claim
`total = round(sum(nightlySnapshot), 2)` fails once the date-change flag
is set for a Prepaid/60-Day type. -/
theorem quote_total_neq_snapshot_sum_cex :
    quote_total Sempty 0 0 1 RType.Prepaid 0 true =
      some { total := 24750, nightly := [(0, 22500)], eligible := true,
             occ := 0, penalty := 24750 } ∧
    (24750 : Int) ≠ ([((0 : Int), (22500 : Int))].map Prod.snd).sum := by
  constructor
  · simp [quote_total, quote_plain_total, quote_nightly, quote_mult, quote_elig, quote_occ,
      occ_ratio, occ_active, nightly_counts, Sempty, daterange, base_rate, RATE_MULT,
      roundC, round110, List.range_succ]
    norm_num
  · decide

/-- C4 (amended): in the plain module only Prepaid reservations record
the full advance at creation (`paid_advance = total`, `fully_paid =
true`); 60-Day, Conventional and Incentive all start with
`paid_advance = 0` and `fully_paid = false`.  In the enhanced module the
recorded advance is the full total for both Prepaid and 60-Day and 0
otherwise (that module writes no `fully_paid` key at all). -/
theorem create_advance_payment_policy (res_id : String) (a d : Int) (rtype : RType)
    (total : Int) (nightly : List (Int × Int)) (room : String)
    (status : RStatus) (today : Int) :
    ((on_save_plain res_id a d rtype total nightly room status today).paid_advance,
     (on_save_plain res_id a d rtype total nightly room status today).fully_paid) =
      (match rtype with
       | RType.Prepaid => (total, true)
       | _ => ((0 : Int), false)) ∧
    on_save_enhanced_adv rtype total =
      (match rtype with
       | RType.Prepaid => total
       | RType.SixtyDay => total
       | _ => (0 : Int)) := by
  cases rtype <;> simp [on_save_plain, on_save_enhanced_adv]

/-- C4 counterexample: a 60-Day reservation saved through the plain
module's `on_save` (total 600.00) has `paid_advance = 0` and
`fully_paid = false`, not the claimed full advance. -/
theorem sixty_day_create_unpaid_cex :
    r60.rtype = RType.SixtyDay ∧ r60.total_locked = 60000 ∧
    ¬ (r60.paid_advance = r60.total_locked ∧ r60.fully_paid = true) ∧
    r60.paid_advance = 0 ∧ r60.fully_paid = false := by decide

/-- C5 (amended): the plain module's `cancel_reservation` implements the
claimed policy — Conventional/Incentive cancelled fewer than 3 days
before arrival are charged the first night's locked rate (recorded as
the penalty and folded into `paid_advance` as a floor), Conventional/
Incentive cancelled 3 or more days out and Prepaid/60-Day are charged
nothing new.  The enhanced module's `cancel_selected` diverges: it
always charges Conventional/Incentive the first night's rate regardless
of days until arrival, and records a fee of the full locked total for
Prepaid/60-Day cancelled at most 30 days out. -/
theorem cancellation_fee_policy (s : Store) (today : Int) :
    (∀ rec rec' : Reservation, cancel_reservation s today rec = some rec' →
      rec'.status = RStatus.Cancelled ∧
      ((rec.rtype = RType.Conventional ∨ rec.rtype = RType.Incentive) →
        (rec.arrive - today < 3 →
          rec'.no_show_penalty = first_night_or_base s rec ∧
          rec'.paid_advance = max rec.paid_advance (first_night_or_base s rec)) ∧
        (3 ≤ rec.arrive - today →
          rec'.no_show_penalty = rec.no_show_penalty ∧
          rec'.paid_advance = rec.paid_advance)) ∧
      ((rec.rtype = RType.Prepaid ∨ rec.rtype = RType.SixtyDay) →
        rec'.no_show_penalty = rec.no_show_penalty ∧
        rec'.paid_advance = rec.paid_advance)) ∧
    (∀ rec : Reservation, (cancel_selected today rec).status = RStatus.Cancelled ∧
      (cancel_selected today rec).cancellation_fee =
        (match rec.rtype with
         | RType.Conventional | RType.Incentive =>
           (match rec.snapshot with
            | [] => 0
            | (_, c) :: _ => c)
         | RType.Prepaid | RType.SixtyDay =>
           if rec.arrive - today ≤ 30 then rec.total_locked else 0)) := by
  constructor
  · intro rec rec' h
    unfold cancel_reservation at h
    split_ifs at h with h1 h2 h3 h4 <;> cases Option.some.inj h
    · refine ⟨rfl, ?_, ?_⟩
      · intro hct
        rcases hct with hc | hc <;> rcases h3 with hp | hp <;> rw [hc] at hp <;> cases hp
      · intro _
        exact ⟨rfl, rfl⟩
    · refine ⟨rfl, ?_, ?_⟩
      · intro _
        exact ⟨fun _ => ⟨rfl, rfl⟩, fun hge => absurd h4 (not_lt.mpr hge)⟩
      · intro hpt
        exact absurd hpt h3
    · refine ⟨rfl, ?_, ?_⟩
      · intro _
        exact ⟨fun hlt => absurd hlt h4, fun _ => ⟨rfl, rfl⟩⟩
      · intro hpt
        exact absurd hpt h3
  · intro rec
    cases hr : rec.rtype <;> cases hs : rec.snapshot <;>
      simp [cancel_selected, hr, hs]

/-- C5 witness: cancelling the Conventional reservation `rSoon` one day
before arrival charges exactly its first locked night and floors
`paid_advance` at that amount. -/
theorem cancellation_fee_policy_witness :
    rSoonC.no_show_penalty = first_night_or_base Sempty rSoon ∧
    rSoonC.paid_advance = max rSoon.paid_advance (first_night_or_base Sempty rSoon) :=
  (((cancellation_fee_policy Sempty 0).1 rSoon rSoonC rfl).2.1 (Or.inl rfl)).1 (by decide)

/-- C5 counterexample: the enhanced `cancel_selected` charges the
Conventional reservation `r10` its first night (300.00) although it is
cancelled 10 days before arrival, where the claim requires a charge of
0. -/
theorem cancel_selected_fee_far_out_cex :
    r10.rtype = RType.Conventional ∧ (3 : Int) ≤ r10.arrive - 0 ∧
    (cancel_selected 0 r10).cancellation_fee = 30000 ∧
    (cancel_selected 0 r10).cancellation_fee ≠ 0 := by decide

/-- C6 (amended): the daily batch transitions every Booked reservation
that arrived yesterday and was never checked in to status Cancelled
(not No-Show — the plain module has no such status) with
`cancellation_reason = "No-show"`, charging as `no_show_penalty` the
first night's snapshot rate (or yesterday's base rate without a
snapshot) regardless of reservation type; the type-dependent fee policy
(first night for Conventional/Incentive, full locked total for
Prepaid/60-Day, status No-Show) lives only in the enhanced checkout
module's manual `_mark_no_show`. -/
theorem no_show_handling :
    (∀ (s : Store) (today : Int) (r : Reservation), r ∈ s.reservations →
      needs_no_show today r = true →
      no_show_step s today r ∈ ((run_daily_tasks s today).1).reservations ∧
      (no_show_step s today r).status = RStatus.Cancelled ∧
      (no_show_step s today r).cancellation_reason = "No-show" ∧
      (no_show_step s today r).no_show_penalty =
        (match r.snapshot with
         | [] => base_rate s (today - 1)
         | (_, c) :: _ => c)) ∧
    (∀ r r' : Reservation, mark_no_show r = some r' →
      r'.status = RStatus.NoShow ∧
      r'.no_show_fee =
        (match r.rtype with
         | RType.Conventional | RType.Incentive =>
           (match r.snapshot with
            | [] => 0
            | (_, c) :: _ => c)
         | RType.Prepaid | RType.SixtyDay => r.total_locked)) := by
  constructor
  · intro s today r hmem hns
    have hprops := hns
    rw [needs_no_show, decide_eq_true_eq] at hprops
    have hac : auto_cancel_step today r = r := by
      unfold auto_cancel_step
      rw [if_neg]
      rw [needs_auto_cancel, decide_eq_true_eq]
      rintro ⟨-, -, h30, -⟩
      omega
    have hmem2 : no_show_step s today (auto_cancel_step today r) ∈
        ((run_daily_tasks s today).1).reservations := by
      show _ ∈ (s.reservations.map (auto_cancel_step today)).map (no_show_step s today)
      exact List.mem_map_of_mem _ (List.mem_map_of_mem _ hmem)
    rw [hac] at hmem2
    refine ⟨hmem2, ?_, ?_, ?_⟩ <;> (unfold no_show_step; rw [if_pos hns])
  · intro r r' h
    unfold mark_no_show at h
    split_ifs at h with h1
    cases Option.some.inj h
    exact ⟨rfl, rfl⟩

/-- C6 witness: the batch behaviour instantiated at the Prepaid no-show
fixture `rYest` (arrival on day 0, batch run on day 1). -/
theorem no_show_handling_witness :
    no_show_step SYest 1 rYest ∈ ((run_daily_tasks SYest 1).1).reservations ∧
    (no_show_step SYest 1 rYest).status = RStatus.Cancelled ∧
    (no_show_step SYest 1 rYest).cancellation_reason = "No-show" ∧
    (no_show_step SYest 1 rYest).no_show_penalty =
      (match rYest.snapshot with
       | [] => base_rate SYest (1 - 1)
       | (_, c) :: _ => c) :=
  no_show_handling.1 SYest 1 rYest (by decide) (by decide)

/-- C6 counterexample: the batch marks the Prepaid no-show `rYest`
Cancelled with a first-night penalty of 300.00, whereas the claim
requires status No-Show and the full locked total 600.00. -/
theorem daily_no_show_cancels_cex :
    ((run_daily_tasks SYest 1).1).reservations =
      [{ rYest with
          status := RStatus.Cancelled
          no_show_penalty := 30000
          cancellation_reason := "No-show" }] ∧
    RStatus.Cancelled ≠ RStatus.NoShow ∧
    rYest.rtype = RType.Prepaid ∧ rYest.total_locked = 60000 ∧
    (30000 : Int) ≠ 60000 := by decide

/-- C7: the reminder rule never consults `payment_reminders_sent`, so
running the daily batch twice on the same unchanged store re-sends the
60-Day payment reminder: on the store holding only `r45` (a Booked
60-Day booking 45 days from arrival) the second run's task list is the
same non-empty reminder list, not the empty list the claim requires. -/
theorem daily_tasks_second_run_resends_reminder :
    (run_daily_tasks S45 0).2 = [Task.reminder "OO1"] ∧
    (run_daily_tasks (run_daily_tasks S45 0).1 0).2 = [Task.reminder "OO1"] ∧
    (run_daily_tasks (run_daily_tasks S45 0).1 0).2 ≠ ([] : List Task) := by
  decide

/-- C8 (amended): the enhanced `_check_in` succeeds exactly from Booked
with a room assigned and moves the reservation In-House (refusals, being
`none`, change nothing); the plain `check_in_guest` refuses only
In-House, Cancelled, or roomless reservations — with a room assigned it
also succeeds from any other status, e.g. Checked-out. -/
theorem check_in_preconditions :
    (∀ rec rec' : Reservation, check_in_enhanced rec = some rec' →
      rec.status = RStatus.Booked ∧ rec.assigned_room ≠ "" ∧
      rec'.status = RStatus.InHouse) ∧
    (∀ rec : Reservation, rec.status ≠ RStatus.Booked ∨ rec.assigned_room = "" →
      check_in_enhanced rec = none) ∧
    (∀ rec rec' : Reservation, check_in_guest rec = some rec' →
      rec.status ≠ RStatus.InHouse ∧ rec.status ≠ RStatus.Cancelled ∧
      rec.assigned_room ≠ "" ∧ rec'.status = RStatus.InHouse) ∧
    (∀ rec : Reservation, rec.status = RStatus.CheckedOut → rec.assigned_room ≠ "" →
      (check_in_guest rec).isSome = true) := by
  refine ⟨?_, ?_, ?_, ?_⟩
  · intro rec rec' h
    unfold check_in_enhanced at h
    split_ifs at h with h1 h2
    cases Option.some.inj h
    exact ⟨not_not.mp h1, h2, rfl⟩
  · intro rec h
    unfold check_in_enhanced
    rcases h with h | h
    · rw [if_pos h]
    · by_cases hb : rec.status ≠ RStatus.Booked
      · rw [if_pos hb]
      · rw [if_neg hb, if_pos h]
  · intro rec rec' h
    unfold check_in_guest at h
    split_ifs at h with h1 h2 h3
    cases Option.some.inj h
    exact ⟨h1, h2, h3, rfl⟩
  · intro rec h1 h2
    unfold check_in_guest
    rw [if_neg, if_neg, if_neg h2]
    · rfl
    · rw [h1]
      simp
    · rw [h1]
      simp

/-- C8 witness: checking in the Booked, room-assigned fixture `rRoom`
through the enhanced `_check_in` succeeds and lands In-House. -/
theorem check_in_preconditions_witness :
    rRoom.status = RStatus.Booked ∧ rRoom.assigned_room ≠ "" ∧
    rRoomIn.status = RStatus.InHouse :=
  check_in_preconditions.1 rRoom rRoomIn rfl

/-- C8 counterexample: the plain `check_in_guest` checks in the
checked-out reservation `rCO` (room still assigned), mutating it to
In-House, although its status is not Booked. -/
theorem check_in_from_checked_out_cex :
    rCO.status = RStatus.CheckedOut ∧ rCO.status ≠ RStatus.Booked ∧
    check_in_guest rCO =
      some { rCO with status := RStatus.InHouse, checked_in := true } := by decide

/-- C9 (amended): `occ_ratio` is always non-negative, returns 0 on a
zero-length span or an empty active-reservation set, and is at most 1
whenever at most `ROOM_COUNT` (45) reservations are active; with more
than 45 simultaneously active overlapping reservations it exceeds 1. -/
theorem occ_ratio_bounds (s : Store) (a d : Int) (ex : Option String) :
    0 ≤ occ_ratio s a d ex ∧
    (d ≤ a → occ_ratio s a d ex = 0) ∧
    (s.reservations.filter (fun r => isActive r.status) = [] →
      occ_ratio s a d ex = 0) ∧
    ((s.reservations.filter (fun r => isActive r.status)).length ≤ ROOM_COUNT →
      occ_ratio s a d ex ≤ 1) := by
  have hsub : (occ_active s ex).length ≤
      (s.reservations.filter (fun r => isActive r.status)).length := by
    cases ex with
    | none => exact le_refl _
    | some x => exact List.length_filter_le _ _
  refine ⟨?_, ?_, ?_, ?_⟩
  · unfold occ_ratio
    split_ifs
    · exact le_refl 0
    · exact le_refl 0
    · positivity
  · intro hda
    have hnc : nightly_counts s a d ex = [] := by
      unfold nightly_counts daterange
      have h0 : (d - a).toNat = 0 := by omega
      rw [h0]
      rfl
    unfold occ_ratio
    rw [hnc]
    split_ifs with h1 h2
    · rfl
    · rfl
    · exact absurd rfl h2
  · intro hemp
    have hact : occ_active s ex = [] := by
      unfold occ_active
      cases ex with
      | none => exact hemp
      | some x => rw [hemp]; rfl
    unfold occ_ratio
    rw [hact]
    simp
  · intro hcap
    unfold occ_ratio
    split_ifs with h1 h2
    · exact zero_le_one
    · exact zero_le_one
    · have hlen : 0 < (nightly_counts s a d ex).length := by
        rw [List.length_pos]
        intro hn
        exact h2 (by rw [hn]; rfl)
      have hbound : ∀ c ∈ nightly_counts s a d ex, c ≤ ROOM_COUNT := by
        intro c hc
        unfold nightly_counts at hc
        obtain ⟨n, -, rfl⟩ := List.mem_map.mp hc
        exact le_trans (List.length_filter_le _ _) (le_trans hsub hcap)
      have hsum : (nightly_counts s a d ex).sum ≤
          (nightly_counts s a d ex).length * ROOM_COUNT := by
        have h := List.sum_le_card_nsmul (nightly_counts s a d ex) ROOM_COUNT hbound
        simpa [smul_eq_mul] using h
      rw [div_le_one (by norm_num [ROOM_COUNT])]
      rw [div_le_iff₀ (by exact_mod_cast hlen)]
      have hq : ((nightly_counts s a d ex).sum : ℚ) ≤
          (ROOM_COUNT : ℚ) * ((nightly_counts s a d ex).length : ℚ) := by
        exact_mod_cast le_trans hsum (le_of_eq (Nat.mul_comm _ _))
      exact hq

/-- C9 witness: the bounds instantiated at the empty store (ratio 0) and
at the 46-reservation store (ratio still non-negative). -/
theorem occ_ratio_bounds_witness :
    occ_ratio Sempty 0 1 none = 0 ∧ (0 : ℚ) ≤ occ_ratio S46 0 1 none :=
  ⟨(occ_ratio_bounds Sempty 0 1 none).2.2.1 rfl, (occ_ratio_bounds S46 0 1 none).1⟩

/-- C9 counterexample: 46 simultaneously active one-night reservations
over a one-night span give `occ_ratio = 46/45 > 1` — the claimed upper
bound 1 fails for stores booked past physical capacity. -/
theorem occ_ratio_above_one_cex :
    occ_ratio S46 0 1 none = 46 / 45 ∧ ¬ occ_ratio S46 0 1 none ≤ 1 := by
  have h : occ_ratio S46 0 1 none = 46 / 45 := by
    simp [occ_ratio, occ_active, nightly_counts, S46, daterange, List.filter_replicate,
      isActive, rBase, List.range_succ, ROOM_COUNT]
  refine ⟨h, ?_⟩
  rw [h]
  norm_num

/-- C10: no modelled operation lowers `paid_advance`: a successful
payment update adds a positive amount, cancellation only floors it at
the penalty, checkout only raises it to the locked total when a final
payment is due, and prepayment raises it to the locked total. -/
theorem paid_advance_monotone :
    (∀ (rec : Reservation) (pd : Int) (amt : Int) (rec' : Reservation),
      apply_payment_update rec pd amt = some rec' →
      rec.paid_advance ≤ rec'.paid_advance) ∧
    (∀ (s : Store) (today : Int) (rec rec' : Reservation),
      cancel_reservation s today rec = some rec' →
      rec.paid_advance ≤ rec'.paid_advance) ∧
    (∀ (today : Int) (rec rec' : Reservation),
      check_out_guest today rec = some rec' →
      rec.paid_advance ≤ rec'.paid_advance) ∧
    (∀ (today : Int) (rec rec' : Reservation),
      process_prepayment today rec = some rec' →
      rec.paid_advance ≤ rec'.paid_advance) := by
  refine ⟨?_, ?_, ?_, ?_⟩
  · intro rec pd amt rec' h
    unfold apply_payment_update at h
    by_cases h1 : amt ≤ 0
    · rw [if_pos h1] at h
      cases h
    · rw [if_neg h1] at h
      cases Option.some.inj h
      have hamt : (0 : Int) ≤ amt := by omega
      exact le_add_of_nonneg_right hamt
  · intro s today rec rec' h
    unfold cancel_reservation at h
    split_ifs at h <;> cases Option.some.inj h
    · exact le_refl _
    · exact le_max_left _ _
    · exact le_refl _
  · intro today rec rec' h
    unfold check_out_guest at h
    split_ifs at h with h1 h2 <;> cases Option.some.inj h
    · obtain ⟨-, hlt⟩ := h2
      have hpt : rec.paid_advance < rec.total_locked := by omega
      exact le_of_lt hpt
    · exact le_refl _
  · intro today rec rec' h
    unfold process_prepayment at h
    split_ifs at h with h1 h2
    cases Option.some.inj h
    exact le_of_lt (not_le.mp h1)

/-- C10 witness: a 5.00 payment on the unpaid fixture `rBase` raises
`paid_advance` from 0 to 500 cents. -/
theorem paid_advance_monotone_witness :
    rBase.paid_advance ≤ rPaid.paid_advance :=
  paid_advance_monotone.1 rBase 0 500 rPaid rfl

end HotelReservation
